import Mathlib

/-!
Verification of the kernel process launcher and connection-bootstrap layer
(`packages/fs-kernels/src/spawnteract.ts`).

The TypeScript source is shallowly embedded below.  JavaScript objects used
as string maps (the process environment, a kernel spec's `env`) are modelled
as association lists `List (String × String)` looked up with `List.lookup`;
`Object.assign` onto a fresh object is modelled by list concatenation with
the overlay in front, so that `List.lookup` finds the overlay's binding
first, exactly as property lookup on the assigned object does.  Promise
results are modelled with an explicit `Outcome` (resolved/rejected), and a
run of an async function additionally records the errors thrown outside the
promise chain (`uncaught`, i.e. exceptions escaping to the event loop) and
the `console.log` output (`logged`).
-/

/-- A JavaScript `Error` value, identified by its message. -/
structure JsError where
  message : String
deriving DecidableEq, Repr

/-- A JS object used as a string map (e.g. `process.env`, `kernelSpec.env`).
Earlier entries shadow later ones under `List.lookup`. -/
abbrev EnvObj := List (String × String)

/-- `Object.assign({}, base, overlay)`: the overlay's bindings win.
Modelled so that `List.lookup` sees `overlay` first. -/
def objAssign (base overlay : EnvObj) : EnvObj :=
  overlay ++ base

/-- A kernel spec as consumed by `spawnteract.ts`: the `argv` template and
the declared extra environment (`env`). -/
structure KernelSpec where
  argv : List String
  env : EnvObj
deriving DecidableEq, Repr

/-- The `JupyterConnectionInfo` object built by `createConnectionInfo`
(source lines 65-80). -/
structure ConnectionInfo where
  version : Nat
  key : String
  signature_scheme : String
  transport : String
  ip : String
  hb_port : Nat
  control_port : Nat
  shell_port : Nat
  stdin_port : Nat
  iopub_port : Nat
deriving DecidableEq, Repr

/-- `createConnectionInfo(ports)` (source lines 65-80).  The session key is
the fresh random value produced by `uuid.v4()`; the model takes that random
input as the explicit argument `key`.  `ports[i]` is JS array indexing on the
array returned by the port finder. -/
def createConnectionInfo (key : String) (ports : List Nat) : ConnectionInfo :=
  { version := 5
    key := key
    signature_scheme := "hmac-sha256"
    transport := "tcp"
    ip := "127.0.0.1"
    hb_port := ports.getD 0 0
    control_port := ports.getD 1 0
    shell_port := ports.getD 2 0
    stdin_port := ports.getD 3 0
    iopub_port := ports.getD 4 0 }

/-- The argv expansion performed by `launchSpecFromConnectionInfo`
(source lines 177-179): `kernelSpec.argv.map(x => x === "{connection_file}"
? connectionFile : x)`. -/
def launchArgv (kernelSpec : KernelSpec) (connectionFile : String) : List String :=
  kernelSpec.argv.map (fun x => if x = "{connection_file}" then connectionFile else x)

/-- State of the filesystem as seen by `cleanup`: whether the connection
file currently exists, plus an optionally injected `fs.unlinkSync` failure
other than the file being absent (e.g. `EPERM`). -/
structure FsState where
  fileExists : Bool
  unlinkFailure : Option JsError
deriving DecidableEq, Repr

/-- The error `fs.unlinkSync` throws when the file is already gone. -/
def enoentError : JsError := ⟨"ENOENT: no such file or directory"⟩

/-- `fs.unlinkSync(connectionFile)`: throws the injected failure if one is
present, throws `ENOENT` when the file is absent, otherwise deletes the
file. -/
def unlinkSync (fs : FsState) : FsState × Except JsError Unit :=
  match fs.unlinkFailure with
  | some e => (fs, Except.error e)
  | none =>
    if fs.fileExists then ({ fs with fileExists := false }, Except.ok ())
    else (fs, Except.error enoentError)

/-- Result of one synchronous JS call: the filesystem afterwards, the error
the call raised to its caller (if any), and what it logged to the console. -/
structure CallResult where
  state : FsState
  raised : Option JsError
  logged : List String
deriving DecidableEq, Repr

/-- `cleanup(connectionFile)` (source lines 50-56): try `unlinkSync`; the
`catch` clause just `return`s, so on any error nothing is raised and nothing
is logged. -/
def cleanup (fs : FsState) : CallResult :=
  match unlinkSync fs with
  | (fs', Except.ok _) => { state := fs', raised := none, logged := [] }
  | (fs', Except.error _) => { state := fs', raised := none, logged := [] }

/-- Caller-supplied execa spawn options, restricted to the fields
`spawnteract.ts` itself reads or sets.  `none` models a property the caller
did not put on the options object, which `Object.assign` leaves untouched. -/
structure SpawnOptions where
  cleanupConnectionFile : Option Bool
  stdio : Option String
  env : Option EnvObj
deriving DecidableEq, Repr

/-- The fully resolved options object passed to execa. -/
structure FullSpawnOptions where
  cleanupConnectionFile : Bool
  stdio : String
  env : EnvObj
deriving DecidableEq, Repr

/-- The merged environment `Object.assign({}, process.env, kernelSpec.env)`
(source line 185). -/
def mergedEnv (processEnv : EnvObj) (kernelSpec : KernelSpec) : EnvObj :=
  objAssign processEnv kernelSpec.env

/-- `Object.assign({}, defaultSpawnOptions, { env }, spawnOptions)`
(source lines 181-192): defaults are `cleanupConnectionFile: true` and
`stdio: "ignore"`, the `{ env }` layer contributes the merged environment,
and the caller's `spawnOptions` override whichever of the three fields they
carry. -/
def mkFullSpawnOptions (processEnv : EnvObj) (kernelSpec : KernelSpec)
    (spawnOptions : SpawnOptions) : FullSpawnOptions :=
  { cleanupConnectionFile := spawnOptions.cleanupConnectionFile.getD true
    stdio := spawnOptions.stdio.getD "ignore"
    env := spawnOptions.env.getD (mergedEnv processEnv kernelSpec) }

/-- The two observers `launchSpecFromConnectionInfo` may register on the
spawned child process. -/
inductive ObserverKind where
  | exitObserver
  | errorObserver
deriving DecidableEq, Repr

/-- Source lines 196-199: unless `fullSpawnOptions.cleanupConnectionFile`
is `false`, both an `exit` observer and an `error` observer are registered,
each running `cleanup(connectionFile)`. -/
def registeredObservers (fullSpawnOptions : FullSpawnOptions) : List ObserverKind :=
  if fullSpawnOptions.cleanupConnectionFile = false then []
  else [ObserverKind.exitObserver, ObserverKind.errorObserver]

/-- The parts of `launchSpecFromConnectionInfo` (source lines 171-210) the
claims are about: the expanded argv, the resolved spawn options handed to
execa, and the observers registered on the spawned process before the
function returns. -/
structure LaunchModel where
  argv : List String
  fullSpawnOptions : FullSpawnOptions
  observers : List ObserverKind
deriving DecidableEq, Repr

/-- `launchSpecFromConnectionInfo(kernelSpec, config, connectionFile,
spawnOptions)` (source lines 171-210), with the ambient `process.env`
passed explicitly. -/
def launchSpecFromConnectionInfo (processEnv : EnvObj) (kernelSpec : KernelSpec)
    (connectionFile : String) (spawnOptions : SpawnOptions) : LaunchModel :=
  let fullOpts := mkFullSpawnOptions processEnv kernelSpec spawnOptions
  { argv := launchArgv kernelSpec connectionFile
    fullSpawnOptions := fullOpts
    observers := registeredObservers fullOpts }

/-- Effect on the filesystem of the spawned process emitting `exit`: the
registered exit observer (if any) runs `cleanup(connectionFile)`; with no
observer registered nothing touches the connection file. -/
def fireExit (launched : LaunchModel) (fs : FsState) : FsState :=
  if launched.observers.contains ObserverKind.exitObserver then (cleanup fs).state
  else fs

/-- A JS value as handed to the `data` parameter of `fs.writeFile`: either a
string or the bare `config` object. -/
inductive JsValue where
  | str (s : String)
  | obj (config : ConnectionInfo)
deriving DecidableEq, Repr

/-- Node's string coercion `String(v)`: a plain object stringifies to
`"[object Object]"` (on Node versions that accept non-string `writeFile`
data; newer Node instead rejects the call with a `TypeError` - under
neither behaviour does the file receive a serialization of the object). -/
def jsStringCoerce : JsValue → String
  | JsValue.str s => s
  | JsValue.obj _ => "[object Object]"

/-- The `data` argument of the `writeFile(connectionFile, config)` call on
source line 119: the bare `config` object, with no `JSON.stringify`. -/
def writeFileData (config : ConnectionInfo) : JsValue :=
  JsValue.obj config

/-- The connection-file contents a run of `writeConnectionFile` produces
for a given `config`, under Node's lenient string coercion of the
`writeFile` data. -/
def writtenContents (config : ConnectionInfo) : String :=
  jsStringCoerce (writeFileData config)

/-- Serialization of a `ConnectionInfo` as the canonical connection-file
JSON (spec section 6): the object with the fields `version`, `key`,
`signature_scheme`, `transport`, `ip` and the five ports, in that order.
Deserialization succeeding on some contents with result `c` is the same as
the contents being `serializeConnectionInfo c`. -/
def serializeConnectionInfo (c : ConnectionInfo) : String :=
  "\x7b\"version\": " ++ toString c.version ++
  ", \"key\": \"" ++ c.key ++
  "\", \"signature_scheme\": \"" ++ c.signature_scheme ++
  "\", \"transport\": \"" ++ c.transport ++
  "\", \"ip\": \"" ++ c.ip ++
  "\", \"hb_port\": " ++ toString c.hb_port ++
  ", \"control_port\": " ++ toString c.control_port ++
  ", \"shell_port\": " ++ toString c.shell_port ++
  ", \"stdin_port\": " ++ toString c.stdin_port ++
  ", \"iopub_port\": " ++ toString c.iopub_port ++ "\x7d"

/-- The outcome of an async function's promise. -/
inductive Outcome (α : Type) where
  | resolved (a : α)
  | rejected (e : JsError)
deriving DecidableEq, Repr

/-- One run of an async function: its promise outcome, the errors thrown
outside its promise chain (escaping to the event loop as uncaught
exceptions), and its console output. -/
structure RunResult (α : Type) where
  outcome : Outcome α
  uncaught : List JsError
  logged : List String
deriving DecidableEq, Repr

/-- Failure injection for one `writeConnectionFile` run: the error (if any)
with which `mkdirp` invokes its callback, and the error (if any) with which
the promisified `writeFile` rejects. -/
structure WriteCtx where
  mkdirError : Option JsError
  writeError : Option JsError
deriving DecidableEq, Repr

/-- `writeConnectionFile` (source lines 93-128) after the ports have been
obtained.  `mkdirp(runtimeDir, callback)` is fired without being awaited,
and the `throw error` inside its callback runs on a later tick of the event
loop: it escapes the function's `try`/`catch` and its promise, landing in
`uncaught`, while the function continues regardless of the directory
failure.  The awaited `writeFile` rejection, by contrast, is caught, logged
(`console.log(error)`) and rethrown, rejecting the promise.  The random
inputs (`uuid.v4()` for the key and for the file name) and the resolved
runtime directory are passed explicitly. -/
def writeConnectionFileRun (ctx : WriteCtx) (ports : List Nat)
    (key fileId runtimeDir : String) : RunResult (ConnectionInfo × String) :=
  let uncaughtMkdir : List JsError :=
    match ctx.mkdirError with
    | some e => [e]
    | none => []
  let config := createConnectionInfo key ports
  let connectionFile := runtimeDir ++ "/kernel-" ++ fileId ++ ".json"
  match ctx.writeError with
  | some e =>
    { outcome := Outcome.rejected e
      uncaught := uncaughtMkdir
      logged := [e.message] }
  | none =>
    { outcome := Outcome.resolved (config, connectionFile)
      uncaught := uncaughtMkdir
      logged := [] }

/-- An entry of the `KernelResourceByName` mapping: `specs[name].spec`. -/
structure KernelResource where
  spec : KernelSpec
deriving DecidableEq, Repr

/-- The `KernelResourceByName` mapping from kernel name to resource,
modelled like the other JS objects as an association list. -/
abbrev KernelResourceByName := List (String × KernelResource)

/-- Result of `launch`'s name dispatch: either the rejection for a missing
name, or delegation to `launchSpec` with the resolved spec. -/
inductive LaunchDispatch where
  | rejected (e : JsError)
  | delegated (spec : KernelSpec)
deriving DecidableEq, Repr

/-- `launch(kernelName, spawnOptions, specs)` (source lines 223-239).  When
no `specs` mapping is passed, the code first obtains one from `findAll()`
and recurses with it; `discovered` stands for `findAll()`'s result.  With a
mapping in hand, a missing name rejects with
`new Error("No spec available for " + kernelName)`, and a present name
delegates to `launchSpec(specs[kernelName].spec, spawnOptions)`. -/
def launchDispatch (discovered : KernelResourceByName)
    (specs : Option KernelResourceByName) (kernelName : String) : LaunchDispatch :=
  let sp := specs.getD discovered
  match sp.lookup kernelName with
  | none => LaunchDispatch.rejected ⟨"No spec available for " ++ kernelName⟩
  | some r => LaunchDispatch.delegated r.spec

/-- The port-finder options parameter of `writeConnectionFile`. -/
structure PortFinderOptions where
  port : Option Nat
  host : Option String
deriving DecidableEq, Repr

/-- Source lines 97-99: `Object.assign({}, portFinderOptions)` followed by
`options.port = options.port || 9000` and
`options.host = options.host || "127.0.0.1"`; JS `||` also replaces the
falsy present values `0` and `""` with the defaults. -/
def resolvePortFinderOptions (portFinderOptions : Option PortFinderOptions) :
    Nat × String :=
  let opts := portFinderOptions.getD ⟨none, none⟩
  (match opts.port with
   | some p => if p = 0 then 9000 else p
   | none => 9000,
   match opts.host with
   | some h => if h = "" then "127.0.0.1" else h
   | none => "127.0.0.1")

/-- The argument `launchSpec` passes to `writeConnectionFile` on source line
138: none at all, whatever the kernel spec and spawn options the caller
supplied. -/
def launchSpecPortFinderArg (_kernelSpec : KernelSpec)
    (_spawnOptions : SpawnOptions) : Option PortFinderOptions :=
  none

/-- `List.lookup` on concatenated objects: the front (overlay) binding wins,
the back (base) is consulted only when the overlay lacks the key. -/
theorem lookup_append_eq (a b : EnvObj) (k : String) :
    (a ++ b).lookup k =
      match a.lookup k with
      | some v => some v
      | none => b.lookup k := by
  induction a with
  | nil => simp [List.lookup]
  | cons p rest ih =>
    cases h : (k == p.1) <;> simp [List.lookup, h, ih]

/-- C4: argv expansion preserves length, maps every occurrence of the literal
placeholder token to the connection-file path, and leaves every other token
unchanged in place. -/
theorem launchArgv_expansion (kernelSpec : KernelSpec) (connectionFile : String) :
    (launchArgv kernelSpec connectionFile).length = kernelSpec.argv.length ∧
    ∀ i x, kernelSpec.argv.get? i = some x →
      (launchArgv kernelSpec connectionFile).get? i =
        some (if x = "{connection_file}" then connectionFile else x) := by
  constructor
  · simp [launchArgv]
  · intro i x hx
    rw [List.get?_eq_getElem?] at hx ⊢
    simp [launchArgv, List.getElem?_map, hx]

/-- Witness for C4 at a concrete spec: the placeholder at index 2 becomes the
connection-file path while the token at index 0 passes through. -/
theorem launchArgv_expansion_witness :
    (launchArgv ⟨["python", "-m", "{connection_file}"], []⟩ "/run/kernel-a.json").get? 2 =
        some "/run/kernel-a.json" ∧
    (launchArgv ⟨["python", "-m", "{connection_file}"], []⟩ "/run/kernel-a.json").get? 0 =
        some "python" := by
  constructor
  · have h := (launchArgv_expansion ⟨["python", "-m", "{connection_file}"], []⟩
      "/run/kernel-a.json").2 2 "{connection_file}" (by decide)
    simpa using h
  · have h := (launchArgv_expansion ⟨["python", "-m", "{connection_file}"], []⟩
      "/run/kernel-a.json").2 0 "python" (by decide)
    simpa using h

/-- C5: the descriptor built from five allocated ports has the fixed protocol
fields, carries the freshly generated session key, and assigns the ports
positionally (0 = hb, 1 = control, 2 = shell, 3 = stdin, 4 = iopub). -/
theorem createConnectionInfo_fields (key : String) (p0 p1 p2 p3 p4 : Nat) :
    createConnectionInfo key [p0, p1, p2, p3, p4] =
      { version := 5
        key := key
        signature_scheme := "hmac-sha256"
        transport := "tcp"
        ip := "127.0.0.1"
        hb_port := p0
        control_port := p1
        shell_port := p2
        stdin_port := p3
        iopub_port := p4 } := by
  rfl

/-- C6: `cleanup` never raises; a second invocation raises nothing either
and leaves the filesystem unchanged, so the file is deleted at most once and
the second call on an already-deleted file is a no-op with no error. -/
theorem cleanup_idempotent_no_raise (fs : FsState) :
    (cleanup fs).raised = none ∧
    (cleanup (cleanup fs).state).raised = none ∧
    (cleanup (cleanup fs).state).state = (cleanup fs).state := by
  obtain ⟨fe, uf⟩ := fs
  cases uf <;> cases fe <;> simp [cleanup, unlinkSync]

/-- C7 amended: `cleanup` swallows every deletion error silently: whatever
the cause (already deleted or any other failure), it neither raises nor logs
anything. -/
theorem cleanup_swallows_all_errors (fs : FsState) :
    (cleanup fs).raised = none ∧ (cleanup fs).logged = [] := by
  obtain ⟨fe, uf⟩ := fs
  cases uf <;> cases fe <;> simp [cleanup, unlinkSync]

/-- C7 counterexample: with the file present and `unlinkSync` failing with
`EPERM` (a cause other than "already deleted"), `cleanup` produces no log
record at all, contradicting the claim that such errors are logged. -/
theorem cleanup_eperm_unlogged_counterexample :
    (cleanup ⟨true, some ⟨"EPERM: operation not permitted"⟩⟩).logged = [] ∧
    (cleanup ⟨true, some ⟨"EPERM: operation not permitted"⟩⟩).raised = none ∧
    (⟨"EPERM: operation not permitted"⟩ : JsError) ≠ enoentError := by
  refine ⟨rfl, rfl, ?_⟩
  decide

/-- C2 amended: per key, a caller-supplied `env` in the spawn options
replaces the merged environment wholesale (only its own bindings are
consulted); without a caller `env`, the kernel spec's declared env wins over
the ambient process environment, and a key set in only one of those two
layers keeps its value. -/
theorem env_merge_resolution (processEnv : EnvObj) (kernelSpec : KernelSpec)
    (spawnOptions : SpawnOptions) (k : String) :
    (mkFullSpawnOptions processEnv kernelSpec spawnOptions).env.lookup k =
      match spawnOptions.env with
      | some callerEnv => callerEnv.lookup k
      | none =>
        match kernelSpec.env.lookup k with
        | some v => some v
        | none => processEnv.lookup k := by
  cases h : spawnOptions.env with
  | some callerEnv => simp [mkFullSpawnOptions, h]
  | none =>
    simp only [mkFullSpawnOptions, h, Option.getD, mergedEnv, objAssign]
    exact lookup_append_eq kernelSpec.env processEnv k

/-- C2 counterexample: with three layers each holding a distinct key
(`AMB` only ambient, `SPEC` only in the spec's env, `CALLER` only in the
caller-supplied overrides), the environment handed to execa has dropped
`AMB` and `SPEC`, contradicting the claim that keys set in only one layer
are still present. -/
theorem env_merge_counterexample :
    ((mkFullSpawnOptions [("AMB", "ambient")] ⟨[], [("SPEC", "fromspec")]⟩
        ⟨none, none, some [("CALLER", "fromcaller")]⟩).env.lookup "AMB" = none) ∧
    ((mkFullSpawnOptions [("AMB", "ambient")] ⟨[], [("SPEC", "fromspec")]⟩
        ⟨none, none, some [("CALLER", "fromcaller")]⟩).env.lookup "SPEC" = none) ∧
    ((mkFullSpawnOptions [("AMB", "ambient")] ⟨[], [("SPEC", "fromspec")]⟩
        ⟨none, none, some [("CALLER", "fromcaller")]⟩).env.lookup "CALLER" =
          some "fromcaller") := by
  decide

/-- C9: passing `cleanupConnectionFile: false` registers no observer on the
child, and the connection file survives the process's exit; with the option
absent or `true`, both the exit and the error observer are registered. -/
theorem cleanupConnectionFile_option_controls_observers (processEnv : EnvObj)
    (kernelSpec : KernelSpec) (connectionFile : String)
    (spawnOptions : SpawnOptions) (fs : FsState) :
    (spawnOptions.cleanupConnectionFile = some false →
      (launchSpecFromConnectionInfo processEnv kernelSpec connectionFile
          spawnOptions).observers = [] ∧
      (fs.fileExists = true →
        (fireExit (launchSpecFromConnectionInfo processEnv kernelSpec
            connectionFile spawnOptions) fs).fileExists = true)) ∧
    ((spawnOptions.cleanupConnectionFile = none ∨
        spawnOptions.cleanupConnectionFile = some true) →
      (launchSpecFromConnectionInfo processEnv kernelSpec connectionFile
          spawnOptions).observers =
        [ObserverKind.exitObserver, ObserverKind.errorObserver]) := by
  constructor
  · intro hfalse
    constructor
    · simp [launchSpecFromConnectionInfo, registeredObservers,
        mkFullSpawnOptions, hfalse]
    · intro hex
      simp [fireExit, launchSpecFromConnectionInfo, registeredObservers,
        mkFullSpawnOptions, hfalse, hex]
  · rintro (habs | htrue)
    · simp [launchSpecFromConnectionInfo, registeredObservers,
        mkFullSpawnOptions, habs]
    · simp [launchSpecFromConnectionInfo, registeredObservers,
        mkFullSpawnOptions, htrue]

/-- Witness for C9 at concrete inputs: with `cleanupConnectionFile: false`
no observers exist and the file survives exit; with empty options both
observers are registered. -/
theorem cleanupConnectionFile_option_witness :
    (launchSpecFromConnectionInfo [] ⟨["k"], []⟩ "/run/kernel-a.json"
        ⟨some false, none, none⟩).observers = [] ∧
    (fireExit (launchSpecFromConnectionInfo [] ⟨["k"], []⟩ "/run/kernel-a.json"
        ⟨some false, none, none⟩) ⟨true, none⟩).fileExists = true ∧
    (launchSpecFromConnectionInfo [] ⟨["k"], []⟩ "/run/kernel-a.json"
        ⟨none, none, none⟩).observers =
      [ObserverKind.exitObserver, ObserverKind.errorObserver] := by
  have h1 := (cleanupConnectionFile_option_controls_observers [] ⟨["k"], []⟩
    "/run/kernel-a.json" ⟨some false, none, none⟩ ⟨true, none⟩).1 rfl
  have h2 := (cleanupConnectionFile_option_controls_observers [] ⟨["k"], []⟩
    "/run/kernel-a.json" ⟨none, none, none⟩ ⟨true, none⟩).2 (Or.inl rfl)
  exact ⟨h1.1, h1.2 rfl, h2⟩

/-- Appending on the right preserves the head character of a string. -/
theorem data_head_append (s t : String) (c : Char)
    (h : s.data.head? = some c) : (s ++ t).data.head? = some c := by
  obtain ⟨a⟩ := s
  obtain ⟨b⟩ := t
  cases a with
  | nil => simp at h
  | cons x xs =>
    simp [List.head?] at h
    subst h
    rfl

/-- C1 fails on the code: `writeFile` receives the bare `config` object with
no `JSON.stringify`, so the connection file holds `"[object Object]"` (or,
on newer Node, the write is rejected with a `TypeError`), which is not the
serialization of any connection descriptor - in particular not of the
descriptor built for the launch. -/
theorem connection_file_contents_not_descriptor :
    writtenContents (createConnectionInfo "5ba9" [9000, 9001, 9002, 9003, 9004]) =
      "[object Object]" ∧
    ∀ c : ConnectionInfo,
      serializeConnectionInfo c ≠
        writtenContents (createConnectionInfo "5ba9" [9000, 9001, 9002, 9003, 9004]) := by
  refine ⟨rfl, ?_⟩
  intro c h
  have h1 : (serializeConnectionInfo c).data.head? = some '\x7b' := by
    unfold serializeConnectionInfo
    repeat
      apply data_head_append
    decide
  rw [h] at h1
  exact absurd h1 (by decide)

/-- C3 fails on the code for the directory half: with `mkdirp` failing and
the file write succeeding, `writeConnectionFile` still resolves, and the
mkdir error escapes the promise chain as an uncaught exception instead of
rejecting the call; only a `writeFile` failure rejects the promise. -/
theorem writeConnectionFile_mkdir_error_escapes :
    (writeConnectionFileRun ⟨some ⟨"EACCES: permission denied, mkdir"⟩, none⟩
        [9000, 9001, 9002, 9003, 9004] "5ba9" "f1" "/run/jupyter").outcome =
      Outcome.resolved
        (createConnectionInfo "5ba9" [9000, 9001, 9002, 9003, 9004],
          "/run/jupyter/kernel-f1.json") ∧
    (writeConnectionFileRun ⟨some ⟨"EACCES: permission denied, mkdir"⟩, none⟩
        [9000, 9001, 9002, 9003, 9004] "5ba9" "f1" "/run/jupyter").uncaught =
      [⟨"EACCES: permission denied, mkdir"⟩] ∧
    (writeConnectionFileRun ⟨none, some ⟨"ENOSPC: no space left on device"⟩⟩
        [9000, 9001, 9002, 9003, 9004] "5ba9" "f1" "/run/jupyter").outcome =
      Outcome.rejected ⟨"ENOSPC: no space left on device"⟩ := by
  refine ⟨by decide, rfl, rfl⟩

/-- C8: for a kernel name absent from the discovered or caller-supplied
spec mapping, `launch` rejects with exactly the spec-not-found error, whose
message names the missing kernel. -/
theorem launch_missing_name_rejects (discovered : KernelResourceByName)
    (specs : Option KernelResourceByName) (kernelName : String)
    (h : (specs.getD discovered).lookup kernelName = none) :
    launchDispatch discovered specs kernelName =
      LaunchDispatch.rejected ⟨"No spec available for " ++ kernelName⟩ ∧
    ∃ pre, "No spec available for " ++ kernelName = pre ++ kernelName := by
  refine ⟨?_, ⟨"No spec available for ", rfl⟩⟩
  simp [launchDispatch, h]

/-- Witness for C8: looking up "python3" in an empty discovered mapping
rejects with the message naming it. -/
theorem launch_missing_name_witness :
    launchDispatch [] none "python3" =
      LaunchDispatch.rejected ⟨"No spec available for python3"⟩ := by
  have h := (launch_missing_name_rejects [] none "python3" rfl).1
  exact h.trans (by decide)

/-- C10: `launchSpec` (and `launch`, which delegates to it) invokes
`writeConnectionFile` with no port-finder options, so port probing always
resolves to base port 9000 and host "127.0.0.1", independently of every
caller-supplied parameter. -/
theorem launchSpec_port_options_fixed (kernelSpec : KernelSpec)
    (spawnOptions : SpawnOptions) :
    launchSpecPortFinderArg kernelSpec spawnOptions = none ∧
    resolvePortFinderOptions (launchSpecPortFinderArg kernelSpec spawnOptions) =
      (9000, "127.0.0.1") :=
  ⟨rfl, rfl⟩
